import Mathlib

/-!
# Verification of the CliPy-Hooks command shim

A shallow embedding of the two near-duplicate shim implementations of the
repository, `clipy_hooks/cli.py` (namespace `Clipy`) and
`pre_commit_pycli/cli.py` (namespace `PyCli`), together with theorems
checking the natural-language specification against them.

Modelling conventions:
* Byte strings (`bytes`) are modelled as Lean `String`s; `encode`/`decode`
  are the identity.  Splitting on the line-feed byte `b"\x0a"` becomes
  `String.splitOn "\n"`.
* Process exit (`sys.exit` / `raise SystemExit`) is modelled by the
  `Outcome` type: `.exited err code` records the bytes written to the
  process error stream by the exiting routine together with the exit code.
* External effects (the filesystem, `shutil.which`, spawned subprocesses)
  are oracle parameters: a subprocess invocation is a function from the
  assembled argument vector to an `ExecResult`.
* `pathlib.Path` values are modelled by their normalised string
  representation (`pyPath`); `Path()` prints as `"."`.
-/

namespace CliPyHooks

/-- Outcome of one subprocess invocation (`subprocess.CompletedProcess`):
captured stdout bytes, stderr bytes and the integer return code. -/
structure ExecResult where
  stdout : String
  stderr : String
  returncode : Int
deriving Repr, DecidableEq

/-- Result of running a piece of shim code: either it returns a value, or it
terminated the whole process, recording the bytes it wrote to the process
error stream and the exit code it passed to `SystemExit`. -/
inductive Outcome (α : Type) where
  | ok : α → Outcome α
  | exited : String → Int → Outcome α
deriving Repr, DecidableEq

/-- `Outcome.ok` and `Outcome.exited` never coincide. -/
theorem Outcome.ok_ne_exited {α : Type} (a : α) (e : String) (c : Int) :
    (Outcome.ok a : Outcome α) ≠ Outcome.exited e c := by
  intro h
  cases h

/-- `str.startswith`, computed structurally over the character lists. -/
def strStartsWith (s pre : String) : Bool :=
  pre.toList.isPrefixOf s.toList

/-- `str.endswith`, computed structurally over the character lists. -/
def strEndsWith (s suf : String) : Bool :=
  suf.toList.isSuffixOf s.toList

/-- Drop the first `n` characters of a string. -/
def strDrop (s : String) (n : Nat) : String :=
  String.mk (s.toList.drop n)

/-- Split a character list on every occurrence of `c` (Python
`bytes.split` / `str.split` with a one-character separator: the empty
input yields one empty piece, separators are never collapsed). -/
def splitOnChar (c : Char) : List Char → List (List Char)
  | [] => [[]]
  | x :: xs =>
      let r := splitOnChar c xs
      if x = c then [] :: r
      else
        match r with
        | [] => [[x]]
        | h :: t => (x :: h) :: t

/-- String wrapper around `splitOnChar`. -/
def strSplitOn (s : String) (c : Char) : List String :=
  (splitOnChar c s.toList).map String.mk

/-- Python `str.replace` on character lists: replace every non-overlapping
occurrence of `pat`, scanning left to right.  `fuel` bounds the recursion;
callers pass the input length, which suffices since every step consumes at
least one character. -/
def listReplace (pat repl : List Char) : Nat → List Char → List Char
  | _, [] => []
  | 0, l => l
  | fuel + 1, x :: xs =>
      if pat ≠ [] && pat.isPrefixOf (x :: xs) then
        repl ++ listReplace pat repl fuel ((x :: xs).drop pat.length)
      else x :: listReplace pat repl fuel xs

/-- Python `str.replace` for a non-empty pattern. -/
def strReplace (s pat repl : String) : String :=
  String.mk (listReplace pat.toList repl.toList s.toList.length s.toList)

/-- Model of `pathlib.PurePosixPath` string normalisation: empty and `"."`
components are dropped, separators collapsed, and the empty path prints as
`"."` (so `Path()` = `Path(".")` = `Path("")` = `"."`).  Symlink and `..`
resolution are not modelled (no claim depends on them). -/
def pyPath (s : String) : String :=
  let comps := (strSplitOn s '/').filter (fun c => c ≠ "" && c ≠ ".")
  let body := String.intercalate "/" comps
  if strStartsWith s "/" then "/" ++ body
  else if body = "" then "." else body

/-- The default `Path()` value (the current directory, printed `"."`). -/
def pyPathEmpty : String := pyPath ""

/-- `Path.joinpath`: join two path fragments with a separator and
renormalise. -/
def pyJoin (a b : String) : String := pyPath (a ++ "/" ++ b)

/-- `pathlib.Path.suffix`: the extension of the final component, empty when
the name has no dot or begins with its only dot. -/
def pySuffix (p : String) : String :=
  let name := ((strSplitOn p '/').getLastD "")
  let parts := strSplitOn name '.'
  match parts with
  | [] => ""
  | [_] => ""
  | first :: rest =>
      if first = "" && rest.length = 1 then ""
      else "." ++ rest.getLastD ""

/-- The diagnostic format shared by both implementations
(`raise_error`): `Problem with <command>: <problem>\n<details>\n`. -/
def errorMessage (command problem details : String) : String :=
  "Problem with " ++ command ++ ": " ++ problem ++ "\n" ++ details ++ "\n"

/-- `Command.raise_error`: write the formatted diagnostic to the error
stream and terminate the process with exit code 1 (both variants). -/
def raiseError {α : Type} (command problem details : String) : Outcome α :=
  .exited (errorMessage command problem details) 1

/-- Python `repr` of a plain string without quotes or escapes inside
(the only shape the shim ever formats): `'text'`. -/
def pyStrRepr (s : String) : String := "'" ++ s ++ "'"

/-- Python `repr` of a list of such strings, as produced by an f-string
interpolation of an argument list: `['a', 'b']`. -/
def pyListRepr (l : List String) : String :=
  "[" ++ String.intercalate ", " (l.map pyStrRepr) ++ "]"

/-- Python's `str.splitlines` (restricted to `\n` line endings): split on
every line feed, without a trailing empty entry for a final newline. -/
def pySplitlines (s : String) : List String :=
  let l := strSplitOn s '\n'
  if l.getLast? = some "" then l.dropLast else l

/-- One-or-more-digits test used by the version regex model. -/
def allDigits (s : String) : Bool := s.length > 0 && s.toList.all Char.isDigit

/-- Characters matched by the character class `[\d+_\+\-a-z]` of the
version-extraction regex. -/
def isVerChar (c : Char) : Bool :=
  c.isDigit || c = '_' || c = '+' || c = '-' || ('a' ≤ c && c ≤ 'z')

/-- Match one `\d+\.` group at the head of the input: one or more digits
followed by a literal dot.  Returns the consumed characters and the rest. -/
def matchGroup (s : List Char) : Option (List Char × List Char) :=
  let ds := s.takeWhile Char.isDigit
  let rest := s.dropWhile Char.isDigit
  if ds.isEmpty then none
  else
    match rest with
    | '.' :: r => some (ds ++ ['.'], r)
    | _ => none

/-- Greedily match `(\d+\.)+` at the head of the input: consumed characters,
rest, and the number of groups.  `fuel` bounds the recursion; callers pass
the input length, which suffices since every group consumes at least two
characters. -/
def matchGroups : Nat → List Char → List Char × List Char × Nat
  | 0, s => ([], s, 0)
  | fuel + 1, s =>
      match matchGroup s with
      | none => ([], s, 0)
      | some (g, r) =>
          let (c, r', n) := matchGroups fuel r
          (g ++ c, r', n + 1)

/-- Match the version regex `((?:\d+\.)+[\d+_\+\-a-z]+)` anchored at the
head of the input, with Python's greedy-with-backtracking semantics: take
as many `\d+\.` groups as possible; if no class character follows, give the
last group back (its digits then satisfy the class), which is possible only
when at least two groups matched. -/
def matchVersionAt (s : List Char) : Option (List Char) :=
  let (consumed, rest, n) := matchGroups s.length s
  if n = 0 then none
  else
    match rest.takeWhile isVerChar with
    | [] => if n ≥ 2 then some consumed.dropLast else none
    | cs => some (consumed ++ cs)

/-- `re.search` of the version pattern preceded by a literal look-behind
fragment: try every start position from the left, requiring the literal
`lb` immediately before the version match.  Models the regex
`look_behind + r"((?:\d+\.)+[\d+_\+\-a-z]+)"` for literal `look_behind`
(the repository's hook definitions pass literal anchors); returns capture
group 1 (the version, without the anchor). -/
def searchVersion (lb : List Char) : List Char → Option (List Char)
  | [] => none
  | c :: rest =>
      match (if lb.isPrefixOf (c :: rest) then matchVersionAt ((c :: rest).drop lb.length) else none) with
      | some m => some m
      | none => searchVersion lb rest

namespace Clipy

/-- The mutable per-invocation state of `clipy_hooks.cli.Command`:
retained tool arguments, the configured install path (a `pyPath` string,
`pyPathEmpty` when unset), positional paths, the accumulated stdout/stderr
buffers, return code and help URL. -/
structure CommandState where
  command : String
  args : List String
  installPath : String
  paths : List String
  stdout : String
  stderr : String
  returnCode : Int
  helpUrl : String
deriving Repr, DecidableEq

/-- A fresh `Command` state right after the field initialisers of
`Command.__init__` run (before `_parse_args`). -/
def initState (command : String) (args : List String) (helpUrl : String) : CommandState :=
  { command := command
    args := args
    installPath := pyPathEmpty
    paths := []
    stdout := ""
    stderr := ""
    returnCode := 0
    helpUrl := helpUrl }

/-- The shim options recognised by the `ArgumentParser` built in
`Command._parse_args`, together with the leftovers of
`parse_known_args`. -/
structure ShimArgs where
  installDir : Option String
  version : Option String
  paths : List String
  extras : List String
deriving Repr, DecidableEq

/-- Record an `--install-dir` value with argparse's last-occurrence-wins
semantics (the recursion sees later occurrences first). -/
def setInstallDir (v : String) (p : ShimArgs) : ShimArgs :=
  if p.installDir.isNone then { p with installDir := some v } else p

/-- Record a `--version` value, last occurrence winning. -/
def setVersion (v : String) (p : ShimArgs) : ShimArgs :=
  if p.version.isNone then { p with version := some v } else p

/-- Tokens argparse treats as negative numbers (and hence positionals)
rather than as unknown options; modelled for integer literals. -/
def isNegNumber (a : String) : Bool :=
  strStartsWith a "-" && allDigits (strDrop a 1)

/-- Tokens argparse treats as option-like: they begin with `-`, are not the
bare `-`, and do not look like negative numbers. -/
def isOptionLike (a : String) : Bool :=
  strStartsWith a "-" && a ≠ "-" && !isNegNumber a

/-- Model of `ArgumentParser.parse_known_args` for the parser built in
`Command._parse_args`: options `--install-dir` and `--version`, each
taking exactly one value (in `--opt value` or `--opt=value` form), and a
positional `paths` with `nargs="*"`.  `none` models argparse's usage-error
process exit (a recognised option at the end of argv with its value
missing).  A bare `--` ends option scanning: everything after it is
positional.  Unrecognised option-like tokens become `extras` (the list
returned as leftovers), every other token a positional path.  Argparse's
prefix-abbreviation matching and its refusal to take an option-like token
as an option value are not modelled; no invocation shape the claims
mention depends on them. -/
def parseKnownArgs : List String → Option ShimArgs
  | [] => some ⟨none, none, [], []⟩
  | a :: rest =>
      if a = "--" then some ⟨none, none, rest, []⟩
      else if a = "--install-dir" then
        match rest with
        | [] => none
        | v :: rest' => (parseKnownArgs rest').map (setInstallDir v)
      else if a = "--version" then
        match rest with
        | [] => none
        | v :: rest' => (parseKnownArgs rest').map (setVersion v)
      else if strStartsWith a "--install-dir=" then
        (parseKnownArgs rest).map (setInstallDir (strDrop a "--install-dir=".length))
      else if strStartsWith a "--version=" then
        (parseKnownArgs rest).map (setVersion (strDrop a "--version=".length))
      else if isOptionLike a then
        (parseKnownArgs rest).map (fun p => { p with extras := a :: p.extras })
      else
        (parseKnownArgs rest).map (fun p => { p with paths := a :: p.paths })

/-- Stand-in for the usage text argparse writes before its exit-code-2
termination; its exact wording is not modelled. -/
def usageErrorText : String := "usage"

/-- `Command._execute_with_arguments`, argument-vector assembly: the
executable is `install_path.joinpath(command).resolve()` when an install
path is set, else the bare command name; a `.py` suffix prepends the
`python` interpreter.  `resolve` is the filesystem oracle for
`Path.resolve` (absolutisation and symlinks). -/
def executeArgv (st : CommandState) (resolve : String → String) (extra : List String) : List String :=
  let exe :=
    if st.installPath ≠ pyPathEmpty then resolve (pyJoin st.installPath st.command)
    else pyPath st.command
  let base := exe :: extra
  if pySuffix exe = ".py" then "python" :: base else base

/-- `Command._execute_with_arguments`: run the assembled argument vector
through the subprocess oracle. -/
def executeWithArguments (st : CommandState) (resolve : String → String)
    (runProc : List String → ExecResult) (extra : List String) : ExecResult :=
  runProc (executeArgv st resolve extra)

/-- `Command.get_version_str`: run the tool with `--version`, decode its
stdout and search it with the version regex; no match is a fatal
`raise_error`. -/
def getVersionStr (st : CommandState) (resolve : String → String)
    (runProc : List String → ExecResult) : Outcome String :=
  let child := executeWithArguments st resolve runProc ["--version"]
  match searchVersion [] child.stdout.toList with
  | some v => .ok (String.mk v)
  | none => raiseError st.command "getting version" "The version format for this command has changed."

/-- `Command._assert_version`: Python substring containment
(`expected_ver in actual_ver`); on mismatch a fatal `raise_error`. -/
def assertVersion (command actual expected : String) : Outcome Unit :=
  if expected.toList <:+: actual.toList then .ok ()
  else
    raiseError command ("Version of " ++ command ++ " is wrong.")
      ("Expected version: " ++ expected ++ " Found version: " ++ actual ++ ". " ++
       "Edit your pre-commit config or use a different version " ++
       "of " ++ command ++ ".")

/-- `Command._parse_args`: drop `argv[0]`, run the argparse model, store the
install dir (normalised by the `Path` conversion of `type=Path`), the
positional paths and the leftover tool arguments, and, when `--version`
was supplied, run the version check before continuing. -/
def parseArgs (st : CommandState) (resolve : String → String)
    (runProc : List String → ExecResult) : Outcome CommandState :=
  match parseKnownArgs st.args.tail with
  | none => .exited usageErrorText 2
  | some shim =>
      let st' : CommandState :=
        { st with
          args := shim.extras
          installPath := (shim.installDir.map pyPath).getD st.installPath
          paths := shim.paths }
      match shim.version with
      | none => .ok st'
      | some expected =>
          match getVersionStr st' resolve runProc with
          | .exited e c => .exited e c
          | .ok actual =>
              match assertVersion st'.command actual expected with
              | .exited e c => .exited e c
              | .ok _ => .ok st'

/-- `Command.check_installed`: with an install path set, require
`install_path/command` to exist and be a regular file (oracle
`existsIsFile`); otherwise consult `shutil.which` (oracle `which`).  On
failure, a fatal `raise_error` naming the command, the location checked
and the help URL when one is set. -/
def checkInstalled (st : CommandState) (which : String → Option String)
    (existsIsFile : String → Bool) : Outcome Unit :=
  let path : Option String :=
    if st.installPath ≠ pyPathEmpty then
      if existsIsFile (pyJoin st.installPath st.command) then
        some (pyJoin st.installPath st.command)
      else none
    else which st.command
  match path with
  | some _ => .ok ()
  | none =>
      let checkPath :=
        if st.installPath ≠ pyPathEmpty then "at '" ++ st.installPath ++ "'"
        else "and on your PATH"
      let details :=
        "Make sure " ++ st.command ++ " is installed " ++ checkPath ++ ".\n" ++
        (if st.helpUrl ≠ "" then "For more info: " ++ st.helpUrl else "")
      raiseError st.command (st.command ++ " not found") details

/-- `StaticAnalyzerCmd.exit_on_error`: on a non-zero stored return code,
write the accumulated stdout followed by stderr to the error stream and
terminate with that code. -/
def exitOnError (st : CommandState) : Outcome Unit :=
  if st.returnCode ≠ 0 then .exited (st.stdout ++ st.stderr) st.returnCode
  else .ok ()

/-- `StaticAnalyzerCmd.run_command`: check installation, run the tool on
`args + paths`, accumulate its output, adopt its return code, exit on a
non-zero code, and otherwise report whether the code is zero. -/
def runCommand (st : CommandState) (which : String → Option String)
    (existsIsFile : String → Bool) (resolve : String → String)
    (runProc : List String → ExecResult) : Outcome (CommandState × Bool) :=
  match checkInstalled st which existsIsFile with
  | .exited e c => .exited e c
  | .ok _ =>
      let child := executeWithArguments st resolve runProc (st.args ++ st.paths)
      let st' : CommandState :=
        { st with
          stdout := st.stdout ++ child.stdout
          stderr := st.stderr ++ child.stderr
          returnCode := child.returncode }
      match exitOnError st' with
      | .exited e c => .exited e c
      | .ok _ => .ok (st', st'.returnCode == 0)

end Clipy

namespace PyCli

/-- The mutable per-invocation state of `pre_commit_pycli.cli.Command`:
retained tool arguments, the discovered file list, the formatter mode flag,
the accumulated buffers, return code, help URL and the install path (a
plain string, `""` when unset). -/
structure PCState where
  command : String
  lookBehind : String
  args : List String
  files : List String
  editInPlace : Bool
  stdout : String
  stderr : String
  returncode : Int
  helpUrl : String
  installPath : String
deriving Repr, DecidableEq

/-- Stand-in for the traceback text the interpreter writes when an
exception (`ValueError` from `list.remove`, `IndexError` from indexing past
the end) escapes; an uncaught exception terminates the process with exit
code 1.  The exact traceback wording is not modelled. -/
def pyTracebackText : String := "Traceback"

/-- Python `list.remove`: drop the first occurrence, `none` when the
element is absent (a `ValueError`). -/
def pyRemove : List String → String → Option (List String)
  | [], _ => none
  | x :: xs, a => if x = a then some xs else (pyRemove xs a).map (x :: ·)

/-- The element right after the first occurrence of `a` in `l`
(`l[l.index(a) + 1]`): `none` when `a`'s first occurrence is the final
element (an `IndexError`) or `a` is absent. -/
def elemAfterFirst : List String → String → Option String
  | [], _ => none
  | x :: xs, a => if x = a then xs.head? else elemAfterFirst xs a

/-- `Command.get_added_files`: keep the argv entries (past the program
name) that exist on disk and are not `.cfg` files; when none remain, fall
back to `git diff --staged --name-only --diff-filter=A` (oracle
`gitChild`), failing fatally if git wrote to stderr or exited non-zero. -/
def getAddedFiles (command : String) (argv : List String)
    (existsP : String → Bool) (gitChild : ExecResult) : Outcome (List String) :=
  let added := argv.tail.filter (fun f => existsP f && !strEndsWith f ".cfg")
  if added.length = 0 then
    if gitChild.stderr ≠ "" ∨ gitChild.returncode ≠ 0 then
      raiseError command
        "Problem determining which files are being committed using git."
        gitChild.stderr
    else .ok (pySplitlines gitChild.stdout)
  else .ok added

/-- `Command.get_version_str`: run `install_path + command` (plain string
concatenation, as in the source) with `--version` and search the decoded
stdout for the look-behind-anchored version pattern; no match is a fatal
`raise_error`. -/
def getVersionStr (command lookBehind installPath : String)
    (runProc : List String → ExecResult) : Outcome String :=
  let child := runProc [installPath ++ command, "--version"]
  match searchVersion lookBehind.toList child.stdout.toList with
  | some v => .ok (String.mk v)
  | none => raiseError command "getting version" "The version format for this command has changed."

/-- `Command.assert_version`: the expected version must occur in the first
`len(expected)` characters of the actual version (`expected_ver not in
actual_ver[:expected_len]` fails).  This routine never returns: a mismatch
is a fatal `raise_error` with exit code 1, and a match falls through to
`sys.exit(0)`. -/
def assertVersion (command actual expected : String) : Outcome Empty :=
  if ¬ expected.toList <:+: (actual.toList.take expected.length) then
    raiseError command ("Version of " ++ command ++ " is wrong")
      ("Expected version: " ++ expected ++ " Found version: " ++ actual ++
       "Edit your pre-commit config or use a different version " ++
       "of " ++ command ++ ".")
  else .exited "" 0

/-- The expected-version string `Command.parse_args` extracts for a
`--version`-prefixed token: the following argv entry when the token is
exactly `--version` with a successor, else the token with spaces, `=` and
the `--version` prefix stripped (handles `--version=8.0.0`). -/
def expectedVersionOf (allArgs : List String) (arg : String) : String :=
  if arg = "--version" && (elemAfterFirst allArgs "--version").isSome then
    (elemAfterFirst allArgs "--version").getD ""
  else strReplace (strReplace (strReplace arg " " "") "=" "") "--version" ""

/-- The loop body of `Command.parse_args` over the raw argument list.
State threaded through: the retained `self.args` and the current
`self.install_path`.  Per token: first drop it from the retained arguments
when it names a discovered file and is not option-like; a
`--version`-prefixed token triggers the version check, which always
terminates the process (exit 0 on success); a `--install-path`-prefixed
token validates and records the *following* argv entry (resolved through
the `resolve` oracle) without ever removing either token from the retained
arguments. -/
def parseArgsGo (command lookBehind : String) (files allArgs : List String)
    (existsP : String → Bool) (resolve : String → String)
    (runProc : List String → ExecResult) :
    List String → List String → String → Outcome (List String × String)
  | [], curArgs, ip => .ok (curArgs, ip)
  | arg :: rest, curArgs, ip =>
      let afterRemove : Outcome (List String) :=
        if files.contains arg && !strStartsWith arg "-" then
          match pyRemove curArgs arg with
          | some l => .ok l
          | none => .exited pyTracebackText 1
        else .ok curArgs
      match afterRemove with
      | .exited e c => .exited e c
      | .ok curArgs' =>
          if strStartsWith arg "--version" then
            match getVersionStr command lookBehind ip runProc with
            | .exited e c => .exited e c
            | .ok actual =>
                match assertVersion command actual (expectedVersionOf allArgs arg) with
                | .exited e c => .exited e c
                | .ok h => h.elim
          else if strStartsWith arg "--install-path" then
            match elemAfterFirst allArgs arg with
            | none => .exited pyTracebackText 1
            | some ipArg =>
                if !existsP ipArg then
                  raiseError command "Install path argument is invalid."
                    ("The path '" ++ ipArg ++ "' does not exist on the system.")
                else
                  parseArgsGo command lookBehind files allArgs existsP resolve runProc
                    rest curArgs' (resolve ipArg)
          else
            parseArgsGo command lookBehind files allArgs existsP resolve runProc
              rest curArgs' ip

/-- `Command.parse_args`: retain `args[1:]` as the tool arguments and run
the loop over the full raw list, updating the retained arguments and the
install path. -/
def parseArgs (st : PCState) (args : List String) (existsP : String → Bool)
    (resolve : String → String) (runProc : List String → ExecResult) : Outcome PCState :=
  match parseArgsGo st.command st.lookBehind st.files args existsP resolve runProc
      args args.tail st.installPath with
  | .exited e c => .exited e c
  | .ok (a, ip) => .ok { st with args := a, installPath := ip }

/-- `Command.check_installed`: an empty install path resolves the command
through `shutil.which`; otherwise `install_path/command` need only exist.
Failure is a fatal `raise_error` naming the command, the location checked
and the help URL. -/
def checkInstalled (st : PCState) (which : String → Option String)
    (existsP : String → Bool) : Outcome Unit :=
  let path : Option String :=
    if st.installPath = "" then which st.command
    else if existsP (pyJoin st.installPath st.command) then
      some (pyJoin st.installPath st.command)
    else none
  match path with
  | some _ => .ok ()
  | none =>
      let checkPath :=
        if st.installPath ≠ "" then " at '" ++ st.installPath ++ "'"
        else " and on your PATH"
      raiseError st.command (st.command ++ " not found")
        ("Make sure " ++ st.command ++ " is installed " ++ checkPath ++ ".\n" ++
         "For more info: " ++ st.helpUrl)

/-- `StaticAnalyzerCmd.exit_on_error`: on a non-zero stored return code,
write the accumulated stdout followed by stderr to the error stream and
terminate with that code. -/
def exitOnError (st : PCState) : Outcome Unit :=
  if st.returncode ≠ 0 then .exited (st.stdout ++ st.stderr) st.returncode
  else .ok ()

/-- `StaticAnalyzerCmd.run_command`: check installation, run
`install_path + command` (string concatenation) with the caller-supplied
arguments, accumulate output, adopt the child's return code and exit on a
non-zero code. -/
def runCommand (st : PCState) (which : String → Option String)
    (existsP : String → Bool) (runProc : List String → ExecResult)
    (callArgs : List String) : Outcome PCState :=
  match checkInstalled st which existsP with
  | .exited e c => .exited e c
  | .ok _ =>
      let child := runProc ((st.installPath ++ st.command) :: callArgs)
      let st' : PCState :=
        { st with
          stdout := st.stdout ++ child.stdout
          stderr := st.stderr ++ child.stderr
          returncode := child.returncode }
      match exitOnError st' with
      | .exited e c => .exited e c
      | .ok _ => .ok st'

/-- `FormatterCmd.get_file_lines`: a missing file is a fatal `raise_error`;
otherwise split the byte content on the line-feed byte.  The filesystem
oracle `fs` returns the content of existing files. -/
def getFileLines (st : PCState) (fs : String → Option String)
    (filename : String) : Outcome (List String) :=
  match fs filename with
  | none =>
      raiseError st.command ("File " ++ filename ++ " not found")
        "Check your path to the file."
  | some content => .ok (strSplitOn content '\n')

/-- `FormatterCmd.get_formatted_lines`: run the formatter as
`[install_path + command, *args, filename]`; any stderr bytes or a
non-zero exit code is a fatal `raise_error` whose diagnostic carries the
full argument list and the combined child output.  An empty stdout yields
zero expected lines; otherwise stdout is split on the line-feed byte. -/
def getFormattedLines (st : PCState) (runProc : List String → ExecResult)
    (filename : String) : Outcome (List String) :=
  let args := (st.installPath ++ st.command) :: (st.args ++ [filename])
  let child := runProc args
  if child.stderr.length > 0 ∨ child.returncode ≠ 0 then
    raiseError st.command
      ("Unexpected Stderr/return code received " ++
       "when analyzing " ++ filename ++ ".\nArgs: " ++ pyListRepr args)
      (child.stdout ++ child.stderr)
  else if child.stdout = "" then .ok []
  else .ok (strSplitOn child.stdout '\n')

/-- Model of `difflib.diff_bytes(difflib.unified_diff, a, b,
fromfile=b"original", tofile=b"formatted")`, an external standard-library
collaborator, captured by the contract the shim relies on: the output is
empty exactly when the line sequences are equal, and otherwise consists of
the two file-label header lines followed by a non-empty body.  The body
here lists the removed and added lines; the minimal context hunks difflib
computes are not modelled (no claim depends on their shape). -/
def unifiedDiff (a b : List String) : List String :=
  if a = b then []
  else "--- original" :: "+++ formatted" ::
    (a.map (fun l => "-" ++ l) ++ b.map (fun l => "+" ++ l))

/-- The 20-equals-sign separator of the per-file report header. -/
def sep20 : String := "===================="

/-- `FormatterCmd.compare_to_formatted`: read the original lines, generate
the expected lines (from the formatter's stdout, or by re-reading the file
through `fsAfter` when `edit_in_place` is set), diff them, and on a
non-empty diff append the per-file header and the diff body to the
accumulated stderr buffer and set the return code to 1 — without
terminating the process. -/
def compareToFormatted (st : PCState) (fsBefore fsAfter : String → Option String)
    (runProc : List String → ExecResult) (filename : String) : Outcome PCState :=
  match getFileLines st fsBefore filename with
  | .exited e c => .exited e c
  | .ok actual =>
  match getFormattedLines st runProc filename with
  | .exited e c => .exited e c
  | .ok expectedStdout =>
  match (if st.editInPlace then getFileLines st fsAfter filename else .ok expectedStdout) with
  | .exited e c => .exited e c
  | .ok expected =>
      let diff := unifiedDiff actual expected
      if diff.length > 0 then
        .ok { st with
              stderr := st.stderr ++ filename ++ "\n" ++ sep20 ++ "\n" ++
                String.intercalate "\n" diff ++ "\n"
              returncode := 1 }
      else .ok st

end PyCli

/-! ## Helper lemmas -/

/-- Appending the empty byte string on the left is the identity. -/
theorem empty_str_append (s : String) : "" ++ s = s := rfl

/-- A byte string has positive length exactly when it is non-empty. -/
theorem str_length_pos (s : String) : 0 < s.length ↔ s ≠ "" := by
  cases s with
  | mk data =>
      cases data with
      | nil => simp [String.length]
      | cons c cs =>
          simp only [String.length]
          constructor
          · intro _ h
            have hd := congrArg String.data h
            simp at hd
          · intro _
            exact Nat.succ_pos cs.length

/-- Splitting never produces an empty list of pieces (Python's `split`
yields at least one piece). -/
theorem splitOnChar_ne_nil (c : Char) (l : List Char) : splitOnChar c l ≠ [] := by
  cases l with
  | nil => simp [splitOnChar]
  | cons x xs =>
      simp only [splitOnChar]
      split
      · simp
      · split
        · simp
        · simp

/-- The shim-only flag tokens of the clipy argparse model, in both their
bare and `=`-joined spellings. -/
def isShimTok (t : String) : Bool :=
  t = "--install-dir" || t = "--version" ||
  strStartsWith t "--install-dir=" || strStartsWith t "--version="

/-- `setInstallDir` touches only the `installDir` field. -/
theorem setInstallDir_fields (v : String) (q : Clipy.ShimArgs) :
    (Clipy.setInstallDir v q).extras = q.extras ∧
    (Clipy.setInstallDir v q).paths = q.paths := by
  unfold Clipy.setInstallDir
  split <;> exact ⟨rfl, rfl⟩

/-- `setVersion` touches only the `version` field. -/
theorem setVersion_fields (v : String) (q : Clipy.ShimArgs) :
    (Clipy.setVersion v q).extras = q.extras ∧
    (Clipy.setVersion v q).paths = q.paths := by
  unfold Clipy.setVersion
  split <;> exact ⟨rfl, rfl⟩

/-- In the absence of a bare `--` separator, the leftovers and the
positional paths produced by the clipy argparse model never contain a
shim-only flag token: those are always consumed together with their
values. -/
theorem parseKnownArgs_no_shim (l : List String) :
    ∀ p : Clipy.ShimArgs, "--" ∉ l → Clipy.parseKnownArgs l = some p →
      (∀ t ∈ p.extras, isShimTok t = false) ∧ (∀ t ∈ p.paths, isShimTok t = false) := by
  induction l using Clipy.parseKnownArgs.induct
  all_goals intro p hdd hp
  case case1 =>
    simp only [Clipy.parseKnownArgs, Option.some.injEq] at hp
    subst hp
    exact ⟨by simp, by simp⟩
  case case2 =>
    simp at hdd
  case case3 =>
    rw [show Clipy.parseKnownArgs ["--install-dir"] = none from by decide] at hp
    simp at hp
  case case4 =>
    rename_i v rest hne ih
    rw [show Clipy.parseKnownArgs ("--install-dir" :: v :: rest) =
        (Clipy.parseKnownArgs rest).map (Clipy.setInstallDir v) from by
      rw [Clipy.parseKnownArgs.eq_def]
      simp] at hp
    rcases Option.map_eq_some'.mp hp with ⟨q, hq, hpq⟩
    subst hpq
    have hdd' : "--" ∉ rest := fun h => hdd (by simp [h])
    obtain ⟨he, hpa⟩ := ih q hdd' hq
    rw [(setInstallDir_fields v q).1, (setInstallDir_fields v q).2]
    exact ⟨he, hpa⟩
  case case5 =>
    rw [show Clipy.parseKnownArgs ["--version"] = none from by decide] at hp
    simp at hp
  case case6 =>
    rename_i v rest hne1 hne2 ih
    rw [show Clipy.parseKnownArgs ("--version" :: v :: rest) =
        (Clipy.parseKnownArgs rest).map (Clipy.setVersion v) from by
      rw [Clipy.parseKnownArgs.eq_def]
      simp] at hp
    rcases Option.map_eq_some'.mp hp with ⟨q, hq, hpq⟩
    subst hpq
    have hdd' : "--" ∉ rest := fun h => hdd (by simp [h])
    obtain ⟨he, hpa⟩ := ih q hdd' hq
    rw [(setVersion_fields v q).1, (setVersion_fields v q).2]
    exact ⟨he, hpa⟩
  case case7 =>
    rename_i a rest h1 h2 h3 h4 ih
    rw [show Clipy.parseKnownArgs (a :: rest) =
        (Clipy.parseKnownArgs rest).map
          (Clipy.setInstallDir (strDrop a "--install-dir=".length)) from by
      rw [Clipy.parseKnownArgs.eq_def]
      simp [h1, h2, h3, h4]] at hp
    rcases Option.map_eq_some'.mp hp with ⟨q, hq, hpq⟩
    subst hpq
    have hdd' : "--" ∉ rest := fun h => hdd (by simp [h])
    obtain ⟨he, hpa⟩ := ih q hdd' hq
    rw [(setInstallDir_fields _ q).1, (setInstallDir_fields _ q).2]
    exact ⟨he, hpa⟩
  case case8 =>
    rename_i a rest h1 h2 h3 h4 h5 ih
    rw [show Clipy.parseKnownArgs (a :: rest) =
        (Clipy.parseKnownArgs rest).map
          (Clipy.setVersion (strDrop a "--version=".length)) from by
      rw [Clipy.parseKnownArgs.eq_def]
      simp [h1, h2, h3, h4, h5]] at hp
    rcases Option.map_eq_some'.mp hp with ⟨q, hq, hpq⟩
    subst hpq
    have hdd' : "--" ∉ rest := fun h => hdd (by simp [h])
    obtain ⟨he, hpa⟩ := ih q hdd' hq
    rw [(setVersion_fields _ q).1, (setVersion_fields _ q).2]
    exact ⟨he, hpa⟩
  case case9 =>
    rename_i a rest h1 h2 h3 h4 h5 h6 ih
    rw [show Clipy.parseKnownArgs (a :: rest) =
        (Clipy.parseKnownArgs rest).map
          (fun q => { q with extras := a :: q.extras }) from by
      rw [Clipy.parseKnownArgs.eq_def]
      simp [h1, h2, h3, h4, h5, h6]] at hp
    rcases Option.map_eq_some'.mp hp with ⟨q, hq, hpq⟩
    subst hpq
    have hdd' : "--" ∉ rest := fun h => hdd (by simp [h])
    obtain ⟨he, hpa⟩ := ih q hdd' hq
    refine ⟨?_, hpa⟩
    intro t ht
    simp only [List.mem_cons] at ht
    rcases ht with rfl | ht
    · simp [isShimTok, h2, h3, h4, h5]
    · exact he t ht
  case case10 =>
    rename_i a rest h1 h2 h3 h4 h5 h6 ih
    rw [show Clipy.parseKnownArgs (a :: rest) =
        (Clipy.parseKnownArgs rest).map
          (fun q => { q with paths := a :: q.paths }) from by
      rw [Clipy.parseKnownArgs.eq_def]
      simp [h1, h2, h3, h4, h5, h6]] at hp
    rcases Option.map_eq_some'.mp hp with ⟨q, hq, hpq⟩
    subst hpq
    have hdd' : "--" ∉ rest := fun h => hdd (by simp [h])
    obtain ⟨he, hpa⟩ := ih q hdd' hq
    refine ⟨he, ?_⟩
    intro t ht
    simp only [List.mem_cons] at ht
    rcases ht with rfl | ht
    · simp [isShimTok, h2, h3, h4, h5]
    · exact hpa t ht

/-- The pycli `parse_args` loop never returns once a `--version`-prefixed
token remains to be processed: the version check either fails (exit 1) or
falls through to `sys.exit(0)`. -/
theorem parseArgsGo_version_exits
    (command lookBehind : String) (files allArgs : List String)
    (existsP : String → Bool) (resolve : String → String)
    (runProc : List String → ExecResult) :
    ∀ (remaining curArgs : List String) (ip : String),
      (∃ a ∈ remaining, strStartsWith a "--version" = true) →
      ∀ res : List String × String,
        PyCli.parseArgsGo command lookBehind files allArgs existsP resolve runProc
          remaining curArgs ip ≠ .ok res := by
  intro remaining
  induction remaining with
  | nil =>
      rintro curArgs ip ⟨a, ha, _⟩ res
      exact absurd ha (List.not_mem_nil a)
  | cons arg rest ih =>
      rintro curArgs ip ⟨a, ha, hav⟩ res heq
      have hmem := List.mem_cons.mp ha
      simp only [PyCli.parseArgsGo] at heq
      split at heq
      · exact absurd heq (by simp)
      · split at heq
        · split at heq
          · exact absurd heq (by simp)
          · split at heq
            · exact absurd heq (by simp)
            · rename_i hemp heqv
              exact hemp.elim
        · rename_i hver
          have hrest : a ∈ rest := by
            rcases hmem with h | h
            · subst h
              exact absurd hav hver
            · exact h
          split at heq
          · split at heq
            · exact absurd heq (by simp)
            · split at heq
              · exact absurd heq (by simp [raiseError])
              · exact ih _ _ ⟨a, hrest, hav⟩ res heq
          · exact ih _ _ ⟨a, hrest, hav⟩ res heq

/-! ## Sample states and oracles for the concrete witnesses -/

/-- A clipy `Command` state as produced by a fresh parse: one tool flag,
one path, empty buffers, default install path. -/
def sampleClipyState : Clipy.CommandState :=
  { command := "tool", args := ["-c"], installPath := pyPathEmpty, paths := ["f.c"],
    stdout := "", stderr := "", returnCode := 0, helpUrl := "" }

/-- A pycli `Command` state as produced by a fresh parse. -/
def samplePCState : PyCli.PCState :=
  { command := "tool", lookBehind := "", args := ["-c"], files := ["f.c"],
    editInPlace := false, stdout := "", stderr := "", returncode := 0,
    helpUrl := "https://example.invalid/docs", installPath := "" }

/-- A search path on which every command resolves. -/
def sampleWhich : String → Option String := fun _ => some "/usr/bin/tool"

/-- A search path on which no command resolves. -/
def sampleWhichNone : String → Option String := fun _ => none

/-- A filesystem oracle on which no path exists. -/
def sampleFsFalse : String → Bool := fun _ => false

/-- A `Path.resolve` oracle that leaves paths unchanged. -/
def sampleResolve : String → String := fun s => s

/-- A wrapped tool reporting findings: non-empty output, exit code 2. -/
def failingProc : List String → ExecResult := fun _ => ⟨"out", "err", 2⟩

/-- A filesystem with a single file `f.c` containing `a\n`. -/
def sampleFsA : String → Option String := fun f => if f = "f.c" then some "a\n" else none

/-- A quiet formatter child that reproduces `a\n` on stdout. -/
def fmtProcA : List String → ExecResult := fun _ => ⟨"a\n", "", 0⟩

/-- A quiet formatter child whose stdout `b\n` differs from the file. -/
def fmtProcB : List String → ExecResult := fun _ => ⟨"b\n", "", 0⟩

/-- A quiet formatter child with completely empty stdout. -/
def fmtProcEmpty : List String → ExecResult := fun _ => ⟨"", "", 0⟩

/-- A pycli state for an invocation `hook --install-path /tmp` whose file
discovery (run before parsing) picked up the existing path `/tmp`. -/
def pcStateC1 : PyCli.PCState :=
  { command := "hook", lookBehind := "", args := [], files := ["/tmp"],
    editInPlace := false, stdout := "", stderr := "", returncode := 0,
    helpUrl := "", installPath := "" }

/-- A filesystem on which exactly `/tmp` exists. -/
def existsTmp : String → Bool := fun s => s = "/tmp"

/-- A wrapped tool succeeding quietly. -/
def okProc : List String → ExecResult := fun _ => ⟨"ok", "", 0⟩

/-! ## Claim theorems -/

/-- C4: the version assertion with actual version `"1.0.0"` and expected
version `"1.0.1"` fails with a version-mismatch diagnostic and terminates
the invocation with exit code 1, in both variants; with actual `"1.0.0"`
and expected `"1.0"` it succeeds under the prefix-match policy (in the
pycli variant the eager check then exits the process normally with code 0,
in the clipy variant execution continues). -/
theorem assert_version_prefix_policy :
    (PyCli.assertVersion "tool" "1.0.0" "1.0.1" =
      .exited (errorMessage "tool" "Version of tool is wrong"
        ("Expected version: 1.0.1 Found version: 1.0.0" ++
         "Edit your pre-commit config or use a different version of tool.")) 1) ∧
    (PyCli.assertVersion "tool" "1.0.0" "1.0" = .exited "" 0) ∧
    (Clipy.assertVersion "tool" "1.0.0" "1.0.1" =
      .exited (errorMessage "tool" "Version of tool is wrong."
        ("Expected version: 1.0.1 Found version: 1.0.0. " ++
         "Edit your pre-commit config or use a different version of tool.")) 1) ∧
    (Clipy.assertVersion "tool" "1.0.0" "1.0" = .ok ()) := by
  refine ⟨?_, ?_, ?_, ?_⟩ <;> decide

/-- C2: for every run of `StaticAnalyzerCmd.run_command` (with the
installation check passing and the per-invocation buffers in their
freshly-constructed empty state): when the wrapped tool's exit code is
non-zero, the child's captured stdout followed by its stderr is written to
the error stream and the process terminates with exactly the child's exit
code; and the clipy variant's `run_command` returns `true` only when the
child's exit code is exactly 0.  Both variants are covered; `child` and
`pchild` name the wrapped tool's execution result in each. -/
theorem run_command_error_propagation
    (st : Clipy.CommandState) (pst : PyCli.PCState)
    (which pwhich : String → Option String) (existsIsFile pexists : String → Bool)
    (resolve : String → String) (runProc prun : List String → ExecResult)
    (callArgs : List String) (child pchild : ExecResult)
    (hchild : runProc (Clipy.executeArgv st resolve (st.args ++ st.paths)) = child)
    (hpchild : prun ((pst.installPath ++ pst.command) :: callArgs) = pchild)
    (hci : Clipy.checkInstalled st which existsIsFile = .ok ())
    (hso : st.stdout = "") (hse : st.stderr = "")
    (hpci : PyCli.checkInstalled pst pwhich pexists = .ok ())
    (hpso : pst.stdout = "") (hpse : pst.stderr = "") :
    (child.returncode ≠ 0 →
       Clipy.runCommand st which existsIsFile resolve runProc =
         .exited (child.stdout ++ child.stderr) child.returncode) ∧
    (child.returncode = 0 →
       Clipy.runCommand st which existsIsFile resolve runProc =
         .ok ({ st with stdout := child.stdout, stderr := child.stderr,
                        returnCode := 0 }, true)) ∧
    (∀ (st' : Clipy.CommandState) (b : Bool),
       Clipy.runCommand st which existsIsFile resolve runProc = .ok (st', b) →
       (b = true ↔ child.returncode = 0)) ∧
    (pchild.returncode ≠ 0 →
       PyCli.runCommand pst pwhich pexists prun callArgs =
         .exited (pchild.stdout ++ pchild.stderr) pchild.returncode) ∧
    (pchild.returncode = 0 →
       PyCli.runCommand pst pwhich pexists prun callArgs =
         .ok { pst with stdout := pchild.stdout, stderr := pchild.stderr,
                        returncode := 0 }) := by
  have hrunC : ∀ r : Int, child.returncode = r →
      Clipy.runCommand st which existsIsFile resolve runProc =
        (if r ≠ 0 then .exited (child.stdout ++ child.stderr) r
         else .ok ({ st with stdout := child.stdout, stderr := child.stderr,
                             returnCode := r }, r == 0)) := by
    intro r hr
    simp only [Clipy.runCommand, hci, Clipy.executeWithArguments, hchild,
      Clipy.exitOnError, hso, hse, empty_str_append, hr]
    by_cases hr0 : r = 0
    · simp [hr0]
    · simp [hr0]
  have hrunP : ∀ r : Int, pchild.returncode = r →
      PyCli.runCommand pst pwhich pexists prun callArgs =
        (if r ≠ 0 then .exited (pchild.stdout ++ pchild.stderr) r
         else .ok { pst with stdout := pchild.stdout, stderr := pchild.stderr,
                             returncode := r }) := by
    intro r hr
    simp only [PyCli.runCommand, hpci, PyCli.exitOnError, hpso, hpse,
      empty_str_append, hpchild, hr]
    by_cases hr0 : r = 0
    · simp [hr0]
    · simp [hr0]
  refine ⟨?_, ?_, ?_, ?_, ?_⟩
  · intro h
    simpa [h] using hrunC child.returncode rfl
  · intro h
    have := hrunC 0 h
    simpa using this
  · intro st' b hok
    by_cases h : child.returncode = 0
    · have h2 := hrunC 0 h
      simp only [ne_eq, not_true_eq_false, if_false, beq_self_eq_true] at h2
      rw [hok] at h2
      simp only [Outcome.ok.injEq, Prod.mk.injEq] at h2
      exact ⟨fun _ => h, fun _ => h2.2⟩
    · have h2 := hrunC child.returncode rfl
      rw [if_pos h] at h2
      rw [h2] at hok
      simp at hok
  · intro h
    simpa [h] using hrunP pchild.returncode rfl
  · intro h
    have := hrunP 0 h
    simpa using this

/-- Witness for C2: with a resolvable command, empty buffers and a wrapped
tool that writes `out`/`err` and exits 2, both variants terminate with the
combined child output on the error stream and exit code 2. -/
theorem run_command_error_propagation_witness :
    Clipy.runCommand sampleClipyState sampleWhich sampleFsFalse sampleResolve failingProc =
      .exited ("out" ++ "err") 2 ∧
    PyCli.runCommand samplePCState sampleWhich sampleFsFalse failingProc ["-c", "f.c"] =
      .exited ("out" ++ "err") 2 := by
  have h := run_command_error_propagation sampleClipyState samplePCState
      sampleWhich sampleWhich sampleFsFalse sampleFsFalse sampleResolve
      failingProc failingProc ["-c", "f.c"] ⟨"out", "err", 2⟩ ⟨"out", "err", 2⟩
      rfl rfl (by decide) rfl rfl (by decide) rfl rfl
  exact ⟨h.1 (by decide), h.2.2.2.1 (by decide)⟩

/-- C9: argument splitting is idempotent on already-clean tool arguments:
for the raw argv `["prog", "--a-flag", "--an-arg=x"]`, whose tail carries
no shim-only flags, the clipy parser keeps the tool-argument list equal to
`["--a-flag", "--an-arg=x"]` with an empty path list, and the pycli parser
keeps the same tool-argument list with the install path unchanged, while
its path extraction classifies none of these tokens as a file (provided,
as on a real system, that no file named like the program or the flags
exists). -/
theorem parse_args_idempotent_on_clean_args
    (resolve : String → String) (runProc : List String → ExecResult)
    (st : PyCli.PCState) (existsP : String → Bool)
    (hprog : st.files.contains "prog" = false)
    (hex : existsP "--a-flag" = false) (hex' : existsP "--an-arg=x" = false) :
    (Clipy.parseArgs (Clipy.initState "prog" ["prog", "--a-flag", "--an-arg=x"] "")
        resolve runProc =
      .ok { command := "prog", args := ["--a-flag", "--an-arg=x"],
            installPath := pyPathEmpty, paths := [], stdout := "", stderr := "",
            returnCode := 0, helpUrl := "" }) ∧
    (PyCli.parseArgs st ["prog", "--a-flag", "--an-arg=x"] existsP resolve runProc =
      .ok { st with args := ["--a-flag", "--an-arg=x"], installPath := st.installPath }) ∧
    (["prog", "--a-flag", "--an-arg=x"].tail.filter
        (fun f => existsP f && !strEndsWith f ".cfg") = []) := by
  refine ⟨rfl, ?_, ?_⟩
  · have h1 : "prog" ∉ st.files := by simpa using hprog
    simp [PyCli.parseArgs, PyCli.parseArgsGo, h1,
      show strStartsWith "prog" "--version" = false from rfl,
      show strStartsWith "prog" "--install-path" = false from rfl,
      show strStartsWith "--a-flag" "-" = true from rfl,
      show strStartsWith "--a-flag" "--version" = false from rfl,
      show strStartsWith "--a-flag" "--install-path" = false from rfl,
      show strStartsWith "--an-arg=x" "-" = true from rfl,
      show strStartsWith "--an-arg=x" "--version" = false from rfl,
      show strStartsWith "--an-arg=x" "--install-path" = false from rfl]
  · simp [hex, hex', List.filter]

/-- Witness for C9: the clean splitting at the concrete sample state and
oracles (no file named like the program or the flags exists). -/
theorem parse_args_idempotent_on_clean_args_witness :
    (Clipy.parseArgs (Clipy.initState "prog" ["prog", "--a-flag", "--an-arg=x"] "")
        sampleResolve okProc =
      .ok { command := "prog", args := ["--a-flag", "--an-arg=x"],
            installPath := pyPathEmpty, paths := [], stdout := "", stderr := "",
            returnCode := 0, helpUrl := "" }) ∧
    (PyCli.parseArgs samplePCState ["prog", "--a-flag", "--an-arg=x"] sampleFsFalse
        sampleResolve okProc =
      .ok { samplePCState with
            args := ["--a-flag", "--an-arg=x"]
            installPath := samplePCState.installPath }) ∧
    (["prog", "--a-flag", "--an-arg=x"].tail.filter
        (fun f => sampleFsFalse f && !strEndsWith f ".cfg") = []) :=
  parse_args_idempotent_on_clean_args sampleResolve okProc samplePCState
    sampleFsFalse (by decide) rfl rfl

/-- C8: for every command whose install directory is unset and whose name
the search path cannot resolve, `check_installed` always fails: it writes
the `raise_error`-formatted diagnostic naming the command, the location
checked (the search path) and — in the clipy variant when one is set, in
the pycli variant unconditionally — the help URL, and terminates the
invocation with exit code 1 (so nothing is ever executed afterwards). -/
theorem check_installed_absent_fails
    (st : Clipy.CommandState) (pst : PyCli.PCState)
    (which pwhich : String → Option String) (existsIsFile pexists : String → Bool)
    (hip : st.installPath = pyPathEmpty) (hw : which st.command = none)
    (hpip : pst.installPath = "") (hpw : pwhich pst.command = none) :
    Clipy.checkInstalled st which existsIsFile =
      .exited (errorMessage st.command (st.command ++ " not found")
        ("Make sure " ++ st.command ++ " is installed " ++ "and on your PATH" ++ ".\n" ++
         (if st.helpUrl ≠ "" then "For more info: " ++ st.helpUrl else ""))) 1 ∧
    PyCli.checkInstalled pst pwhich pexists =
      .exited (errorMessage pst.command (pst.command ++ " not found")
        ("Make sure " ++ pst.command ++ " is installed " ++ " and on your PATH" ++ ".\n" ++
         "For more info: " ++ pst.helpUrl)) 1 := by
  constructor
  · simp [Clipy.checkInstalled, raiseError, hip, hw]
  · simp [PyCli.checkInstalled, raiseError, hpip, hpw]

/-- Witness for C8: the sample commands with an empty search path fail
with the not-found diagnostic and exit code 1. -/
theorem check_installed_absent_fails_witness :
    Clipy.checkInstalled sampleClipyState sampleWhichNone sampleFsFalse =
      .exited (errorMessage "tool" ("tool" ++ " not found")
        ("Make sure " ++ "tool" ++ " is installed " ++ "and on your PATH" ++ ".\n" ++
         (if ("" : String) ≠ "" then "For more info: " ++ "" else ""))) 1 ∧
    PyCli.checkInstalled samplePCState sampleWhichNone sampleFsFalse =
      .exited (errorMessage "tool" ("tool" ++ " not found")
        ("Make sure " ++ "tool" ++ " is installed " ++ " and on your PATH" ++ ".\n" ++
         "For more info: " ++ "https://example.invalid/docs")) 1 :=
  check_installed_absent_fails sampleClipyState samplePCState
    sampleWhichNone sampleWhichNone sampleFsFalse sampleFsFalse rfl rfl rfl rfl

/-- C6: when the formatter invocation for a file produces any stderr bytes
or a non-zero exit code, `FormatterCmd.get_formatted_lines` fails
immediately with a diagnostic carrying the full argument list and the
combined stdout+stderr of the child, terminating the process with exit
code 1 (the output is never treated as a formatting diff). -/
theorem get_formatted_lines_error_exit
    (st : PyCli.PCState) (runProc : List String → ExecResult) (filename : String)
    (child : ExecResult)
    (hchild : runProc ((st.installPath ++ st.command) :: (st.args ++ [filename])) = child)
    (h : child.stderr ≠ "" ∨ child.returncode ≠ 0) :
    PyCli.getFormattedLines st runProc filename =
      .exited (errorMessage st.command
        ("Unexpected Stderr/return code received " ++ "when analyzing " ++ filename ++
         ".\nArgs: " ++
         pyListRepr ((st.installPath ++ st.command) :: (st.args ++ [filename])))
        (child.stdout ++ child.stderr)) 1 := by
  have hcond : child.stderr.length > 0 ∨ child.returncode ≠ 0 := by
    rcases h with h | h
    · exact Or.inl ((str_length_pos child.stderr).mpr h)
    · exact Or.inr h
  simp only [PyCli.getFormattedLines, hchild, raiseError]
  rw [if_pos hcond]

/-- Witness for C6: a formatter child that writes to stderr and exits 2
makes `get_formatted_lines` exit 1 with the argument list and combined
output in the diagnostic. -/
theorem get_formatted_lines_error_exit_witness :
    PyCli.getFormattedLines samplePCState failingProc "f.c" =
      .exited (errorMessage "tool"
        ("Unexpected Stderr/return code received " ++ "when analyzing " ++ "f.c" ++
         ".\nArgs: " ++
         pyListRepr (("" ++ "tool") :: (["-c"] ++ ["f.c"])))
        ("out" ++ "err")) 1 :=
  get_formatted_lines_error_exit samplePCState failingProc "f.c" ⟨"out", "err", 2⟩
    rfl (Or.inl (by decide))

/-- C5: for a target file that exists and a formatter child that is quiet
and exits 0, `FormatterCmd.compare_to_formatted` never terminates the
process and modifies only the accumulated error buffer and the return
code: with a non-empty unified diff between the original lines `orig` and
the expected lines `expected` it returns the state with the per-file
header (filename plus separator line) and the diff body appended to
`stderr` and the return code set to 1; with an empty diff (identical
content) it returns the state unchanged.  `expected` covers both modes:
the re-read file in edit-in-place mode, else the child's stdout lines. -/
theorem compare_to_formatted_frame
    (st : PyCli.PCState) (fsBefore fsAfter : String → Option String)
    (runProc : List String → ExecResult) (filename content contentAfter : String)
    (child : ExecResult) (orig expected : List String)
    (hchild : runProc ((st.installPath ++ st.command) :: (st.args ++ [filename])) = child)
    (hfs : fsBefore filename = some content)
    (hafter : fsAfter filename = some contentAfter)
    (hcs : child.stderr = "") (hrc : child.returncode = 0)
    (horig : strSplitOn content '\n' = orig)
    (hexp : expected = (if st.editInPlace then strSplitOn contentAfter '\n'
                        else if child.stdout = "" then [] else strSplitOn child.stdout '\n')) :
    (PyCli.unifiedDiff orig expected = [] →
       PyCli.compareToFormatted st fsBefore fsAfter runProc filename = .ok st) ∧
    (PyCli.unifiedDiff orig expected ≠ [] →
       PyCli.compareToFormatted st fsBefore fsAfter runProc filename =
         .ok { st with
               stderr := st.stderr ++ filename ++ "\n" ++ PyCli.sep20 ++ "\n" ++
                 String.intercalate "\n" (PyCli.unifiedDiff orig expected) ++ "\n"
               returncode := 1 }) := by
  have key : PyCli.compareToFormatted st fsBefore fsAfter runProc filename =
      (if (PyCli.unifiedDiff orig expected).length > 0
       then .ok { st with
                  stderr := st.stderr ++ filename ++ "\n" ++ PyCli.sep20 ++ "\n" ++
                    String.intercalate "\n" (PyCli.unifiedDiff orig expected) ++ "\n"
                  returncode := 1 }
       else .ok st) := by
    by_cases hso : child.stdout = "" <;> cases heip : st.editInPlace <;>
      rw [hexp] <;>
      simp only [PyCli.compareToFormatted, PyCli.getFileLines, hfs, hafter,
        PyCli.getFormattedLines, hchild, hcs, hrc, hso, heip, horig,
        show ("" : String).length = 0 from rfl, gt_iff_lt, lt_self_iff_false,
        ne_eq, not_true_eq_false, or_self, if_false, if_true,
        Bool.false_eq_true, ite_false, ite_true]
  constructor
  · intro hd
    rw [key, hd]
    simp
  · intro hd
    rw [key, if_pos (by simpa using List.length_pos.mpr hd)]

/-- Witness for C5: on the one-file filesystem, a formatter reproducing the
file leaves the state untouched, and a formatter emitting different content
appends the header and diff and sets the return code to 1 — in both cases
without terminating the process. -/
theorem compare_to_formatted_frame_witness :
    (PyCli.compareToFormatted samplePCState sampleFsA sampleFsA fmtProcA "f.c" =
      .ok samplePCState) ∧
    (PyCli.compareToFormatted samplePCState sampleFsA sampleFsA fmtProcB "f.c" =
      .ok { samplePCState with
            stderr := samplePCState.stderr ++ "f.c" ++ "\n" ++ PyCli.sep20 ++ "\n" ++
              String.intercalate "\n" (PyCli.unifiedDiff ["a", ""] ["b", ""]) ++ "\n"
            returncode := 1 }) := by
  constructor
  · exact (compare_to_formatted_frame samplePCState sampleFsA sampleFsA fmtProcA "f.c"
      "a\n" "a\n" ⟨"a\n", "", 0⟩ ["a", ""] ["a", ""] rfl (by decide) (by decide) rfl rfl
      (by decide) (by decide)).1 (by decide)
  · exact (compare_to_formatted_frame samplePCState sampleFsA sampleFsA fmtProcB "f.c"
      "a\n" "a\n" ⟨"b\n", "", 0⟩ ["a", ""] ["b", ""] rfl (by decide) (by decide) rfl rfl
      (by decide) (by decide)).2 (by decide)

/-- C7: when the formatter's stdout for a file is empty (zero bytes) and
the child is otherwise quiet and exits 0, `get_formatted_lines` returns an
empty line list, and for an original file with non-empty content the
subsequent unified diff computed by `compare_to_formatted` is non-empty,
so the file is always reported as failing (return code 1, report appended).
(The line splitter never returns zero pieces, so this holds for the empty
original as well.) -/
theorem empty_formatter_stdout_reports_diff
    (st : PyCli.PCState) (fsBefore fsAfter : String → Option String)
    (runProc : List String → ExecResult) (filename content : String)
    (hchild : runProc ((st.installPath ++ st.command) :: (st.args ++ [filename])) =
      ⟨"", "", 0⟩)
    (hfs : fsBefore filename = some content) (hc : content ≠ "")
    (heip : st.editInPlace = false) :
    PyCli.getFormattedLines st runProc filename = .ok [] ∧
    PyCli.unifiedDiff (strSplitOn content '\n') [] ≠ [] ∧
    PyCli.compareToFormatted st fsBefore fsAfter runProc filename =
      .ok { st with
            stderr := st.stderr ++ filename ++ "\n" ++ PyCli.sep20 ++ "\n" ++
              String.intercalate "\n"
                (PyCli.unifiedDiff (strSplitOn content '\n') []) ++ "\n"
            returncode := 1 } := by
  have hsplit : strSplitOn content '\n' ≠ [] := by
    simp only [strSplitOn]
    intro h
    exact splitOnChar_ne_nil '\n' content.toList (List.map_eq_nil_iff.mp h)
  have hdiff : PyCli.unifiedDiff (strSplitOn content '\n') [] ≠ [] := by
    simp only [PyCli.unifiedDiff]
    rw [if_neg hsplit]
    simp
  refine ⟨?_, hdiff, ?_⟩
  · simp [PyCli.getFormattedLines, hchild]
  · simp only [PyCli.compareToFormatted, PyCli.getFileLines, hfs,
      PyCli.getFormattedLines, hchild, heip,
      show ("" : String).length = 0 from rfl, gt_iff_lt, lt_self_iff_false,
      ne_eq, not_true_eq_false, or_self, if_false, if_true,
      Bool.false_eq_true, ite_false, ite_true]
    rw [if_pos (by simpa using List.length_pos.mpr hdiff)]

/-- Witness for C7: an empty-stdout formatter on the non-empty file `a\n`
yields zero expected lines and a failing report. -/
theorem empty_formatter_stdout_reports_diff_witness :
    PyCli.getFormattedLines samplePCState fmtProcEmpty "f.c" = .ok [] ∧
    PyCli.unifiedDiff (strSplitOn "a\n" '\n') [] ≠ [] ∧
    PyCli.compareToFormatted samplePCState sampleFsA sampleFsA fmtProcEmpty "f.c" =
      .ok { samplePCState with
            stderr := samplePCState.stderr ++ "f.c" ++ "\n" ++ PyCli.sep20 ++ "\n" ++
              String.intercalate "\n"
                (PyCli.unifiedDiff (strSplitOn "a\n" '\n') []) ++ "\n"
            returncode := 1 } :=
  empty_formatter_stdout_reports_diff samplePCState sampleFsA sampleFsA fmtProcEmpty
    "f.c" "a\n" rfl (by decide) (by decide) rfl

/-- C10: in the clipy variant, an `--install-dir` value that compares equal
to `Path()` (for example `.`) behaves exactly as if no install directory
had been supplied: parsing produces the very same state (so the whole
subsequent computation coincides), `check_installed` never consults the
explicit-path filesystem oracle (it resolves from the search path), and
the assembled argument vector is independent of the `Path.resolve` oracle
and invokes the bare command name. -/
theorem install_dir_cwd_ignored
    (st : Clipy.CommandState) (prog v : String) (rest : List String)
    (resolve resolve' : String → String) (runProc : List String → ExecResult)
    (which : String → Option String) (existsIsFile existsIsFile' : String → Bool)
    (extra : List String)
    (hv : pyPath v = pyPathEmpty) (hip : st.installPath = pyPathEmpty) :
    (Clipy.parseArgs { st with args := prog :: "--install-dir" :: v :: rest } resolve runProc =
      Clipy.parseArgs { st with args := prog :: rest } resolve runProc) ∧
    (Clipy.checkInstalled st which existsIsFile =
      Clipy.checkInstalled st which existsIsFile') ∧
    (Clipy.executeArgv st resolve extra = Clipy.executeArgv st resolve' extra) ∧
    (Clipy.executeArgv st resolve extra =
      (if pySuffix (pyPath st.command) = ".py"
       then "python" :: pyPath st.command :: extra
       else pyPath st.command :: extra)) := by
  refine ⟨?_, ?_, ?_, ?_⟩
  · simp only [Clipy.parseArgs, List.tail_cons]
    rw [show Clipy.parseKnownArgs ("--install-dir" :: v :: rest) =
        (Clipy.parseKnownArgs rest).map (Clipy.setInstallDir v) from by
      simp [Clipy.parseKnownArgs]]
    cases hpk : Clipy.parseKnownArgs rest with
    | none => rfl
    | some p =>
        cases hpd : p.installDir with
        | none => simp [Clipy.setInstallDir, hpd, hv, hip]
        | some w => simp [Clipy.setInstallDir, hpd]
  · simp [Clipy.checkInstalled, hip]
  · simp [Clipy.executeArgv, hip]
  · simp [Clipy.executeArgv, hip]

/-- Witness for C10: with `--install-dir .` the parse result and the two
oracle-independence facts hold at the sample state. -/
theorem install_dir_cwd_ignored_witness :
    (Clipy.parseArgs { sampleClipyState with args := ["prog", "--install-dir", ".", "x.c"] }
        sampleResolve okProc =
      Clipy.parseArgs { sampleClipyState with args := ["prog", "x.c"] }
        sampleResolve okProc) ∧
    (Clipy.checkInstalled sampleClipyState sampleWhich sampleFsFalse =
      Clipy.checkInstalled sampleClipyState sampleWhich (fun _ => true)) ∧
    (Clipy.executeArgv sampleClipyState sampleResolve ["-c"] =
      Clipy.executeArgv sampleClipyState (fun _ => "/abs/tool") ["-c"]) ∧
    (Clipy.executeArgv sampleClipyState sampleResolve ["-c"] =
      (if pySuffix (pyPath "tool") = ".py"
       then "python" :: pyPath "tool" :: ["-c"]
       else pyPath "tool" :: ["-c"])) :=
  install_dir_cwd_ignored sampleClipyState "prog" "." ["x.c"] sampleResolve
    (fun _ => "/abs/tool") okProc sampleWhich sampleFsFalse (fun _ => true) ["-c"]
    (by decide) rfl

/-- Counterexample to C1: in the pycli variant, for the invocation
`hook --install-path /tmp` (with `/tmp` existing and hence discovered as a
file), `parse_args` completes normally yet the retained tool-argument list
still contains the shim-only flag `--install-path`, and the flag's value
`/tmp` is still in the path (file) list. -/
theorem pycli_parse_args_retains_install_path_flag :
    PyCli.parseArgs pcStateC1 ["hook", "--install-path", "/tmp"] existsTmp
        sampleResolve okProc =
      .ok { pcStateC1 with args := ["--install-path"], installPath := "/tmp" } ∧
    "--install-path" ∈
      ({ pcStateC1 with args := ["--install-path"], installPath := "/tmp" }
        : PyCli.PCState).args ∧
    "/tmp" ∈ pcStateC1.files := by
  refine ⟨?_, by decide, by decide⟩
  decide

/-- C1 as amended: in the clipy variant the invariant holds — in the
absence of a bare `--` separator, after `_parse_args` neither the retained
tool-argument list nor the path list contains a shim-only flag token
(`--install-dir`/`--version`, bare or `=`-joined; their consumed values
never appear as those tokens).  In the pycli variant, `--version` never
reaches the tool only because `parse_args` always terminates the whole
process when any `--version`-prefixed argument is present — while
`--install-path` itself is *not* removed from the retained arguments (see
the counterexample). -/
theorem shim_flag_consumption_amended :
    (∀ (l : List String) (p : Clipy.ShimArgs),
       "--" ∉ l → Clipy.parseKnownArgs l = some p →
       (∀ t ∈ p.extras, isShimTok t = false) ∧ (∀ t ∈ p.paths, isShimTok t = false)) ∧
    (∀ (st : PyCli.PCState) (args : List String) (existsP : String → Bool)
       (resolve : String → String) (runProc : List String → ExecResult)
       (st' : PyCli.PCState),
       (∃ a ∈ args, strStartsWith a "--version" = true) →
       PyCli.parseArgs st args existsP resolve runProc ≠ .ok st') := by
  constructor
  · intro l p hdd hp
    exact parseKnownArgs_no_shim l p hdd hp
  · intro st args existsP resolve runProc st' hex heq
    unfold PyCli.parseArgs at heq
    cases hgo : PyCli.parseArgsGo st.command st.lookBehind st.files args existsP
        resolve runProc args args.tail st.installPath with
    | exited e c =>
        rw [hgo] at heq
        simp at heq
    | ok res =>
        exact parseArgsGo_version_exits st.command st.lookBehind st.files args
          existsP resolve runProc args args.tail st.installPath hex res hgo

/-- Witness for amended C1: on `["--install-dir", "d", "x.c", "--weird"]`
the leftovers and paths are free of shim flag tokens, and a pycli parse of
an argv containing `--version=1.0` never returns normally. -/
theorem shim_flag_consumption_amended_witness :
    ((∀ t ∈ (["--weird"] : List String), isShimTok t = false) ∧
     (∀ t ∈ (["x.c"] : List String), isShimTok t = false)) ∧
    PyCli.parseArgs samplePCState ["hook", "--version=1.0"] sampleFsFalse
        sampleResolve okProc ≠
      .ok samplePCState := by
  constructor
  · exact shim_flag_consumption_amended.1 ["--install-dir", "d", "x.c", "--weird"]
      ⟨some "d", none, ["x.c"], ["--weird"]⟩ (by decide) (by decide)
  · exact shim_flag_consumption_amended.2 samplePCState ["hook", "--version=1.0"]
      sampleFsFalse sampleResolve okProc samplePCState
      ⟨"--version=1.0", by decide, by decide⟩

/-- Counterexample to C3: a failing shim invocation whose wrapped analyzer
reports findings with exit code 3 terminates the process with exit code 3,
not 1 — the process exit code is not "exactly 1 on every failure". -/
theorem exit_code_not_always_one_counterexample :
    Clipy.runCommand sampleClipyState sampleWhich sampleFsFalse sampleResolve
        (fun _ => ⟨"findings\n", "", 3⟩) =
      .exited ("findings\n" ++ "") 3 ∧
    ((3 : Int) ≠ 1) := by
  refine ⟨?_, by decide⟩
  decide

/-- C3 as amended: the exit code is 0 on success; every failure exits with
a non-zero code, where every shim-raised diagnostic (`raise_error`: tool
not found, version mismatch, invalid install path, formatter tool error)
exits with exactly 1, while `exit_on_error` (analysis findings) propagates
the wrapped tool's own non-zero exit code. -/
theorem exit_code_amended :
    (∀ (α : Type) (command problem details : String),
       (raiseError command problem details : Outcome α) =
         .exited (errorMessage command problem details) 1) ∧
    (∀ st : Clipy.CommandState, st.returnCode ≠ 0 →
       Clipy.exitOnError st = .exited (st.stdout ++ st.stderr) st.returnCode) ∧
    (∀ pst : PyCli.PCState, pst.returncode ≠ 0 →
       PyCli.exitOnError pst = .exited (pst.stdout ++ pst.stderr) pst.returncode) ∧
    (∀ st : Clipy.CommandState, st.returnCode = 0 → Clipy.exitOnError st = .ok ()) ∧
    (∀ pst : PyCli.PCState, pst.returncode = 0 → PyCli.exitOnError pst = .ok ()) := by
  refine ⟨fun α c p d => rfl, ?_, ?_, ?_, ?_⟩
  · intro st h
    simp [Clipy.exitOnError, h]
  · intro pst h
    simp [PyCli.exitOnError, h]
  · intro st h
    simp [Clipy.exitOnError, h]
  · intro pst h
    simp [PyCli.exitOnError, h]

/-- Witness for amended C3: concrete instances of the 1-exit for raised
diagnostics and the propagated analyzer exit code. -/
theorem exit_code_amended_witness :
    ((raiseError "t" "p" "d" : Outcome Unit) =
      .exited (errorMessage "t" "p" "d") 1) ∧
    Clipy.exitOnError
        { sampleClipyState with
          stdout := "o"
          stderr := "e"
          returnCode := 3 } = .exited ("o" ++ "e") 3 ∧
    PyCli.exitOnError { samplePCState with returncode := 0 } = .ok () :=
  ⟨exit_code_amended.1 Unit "t" "p" "d",
   exit_code_amended.2.1 _ (by decide),
   exit_code_amended.2.2.2.2 _ rfl⟩

end CliPyHooks
